import Mathlib

/-!
Verification development for the Perpetua-Report scripts.

The repository is a family of Python reporting scripts.  The recurring logic —
identifier extraction from campaign labels, cohort classification against
reference sets, and metric aggregation with zero-guarded ratios — is embedded
below as executable Lean definitions, translated from the Python sources:

* `src/scripts/1_process_campaign_data.py`   (extract_asin, classify_campaign,
  the numeric-cleaning loop, and the per-cohort `comparison` table with its
  unguarded `Avg_CPC` / `Conversion_Rate` divisions);
* `src/scripts/10_dashboard_from_campaign_report.py` (extract_identifiers,
  classify_campaign, and the unconditional sku_to_asin build);
* `src/scripts/11_combined_reports_dashboard.py` (extract_and_classify,
  the precedence-respecting sku_to_asin build, calc_all_metrics);
* `src/scripts/13_process_order_data_for_tacos.py` (calc_tacos_metrics).

Numeric record fields are modelled as rationals (`ℚ`).  Pandas/NumPy float
division, which yields ±inf or NaN on a zero denominator instead of raising,
is modelled by the `PdFloat` type and `pdDiv`.
-/

namespace PerpetuaReport

/-- A character in the regex class `[A-Z0-9]` (ASCII uppercase or digit). -/
def isUpperAlnum (c : Char) : Bool :=
  c.isUpper || c.isDigit

/-- Match of the pattern `B[A-Z0-9]{9}` anchored at the head of the character
list: a literal `B` followed by exactly nine uppercase-alphanumeric
characters.  Returns the matched ten characters. -/
def asinAt : List Char → Option (List Char)
  | [] => none
  | c :: rest =>
      if c = 'B' ∧ (rest.take 9).length = 9 ∧ (rest.take 9).all isUpperAlnum then
        some (c :: rest.take 9)
      else
        none

/-- `re.search(r'B[A-Z0-9]{9}', s)`: leftmost match of the ASIN pattern. -/
def reSearchAsin : List Char → Option (List Char)
  | [] => none
  | c :: rest =>
      match asinAt (c :: rest) with
      | some m => some m
      | none => reSearchAsin rest

/-- Match of the pattern `(NT|SD|PN)\d+[A-Z]?` anchored at the head of the
character list: one of the three two-letter markers, a maximal nonempty run of
digits (greedy `\d+`), then optionally one uppercase letter. -/
def skuAt : List Char → Option (List Char)
  | c1 :: c2 :: rest =>
      if (c1 = 'N' ∧ c2 = 'T') ∨ (c1 = 'S' ∧ c2 = 'D') ∨ (c1 = 'P' ∧ c2 = 'N') then
        let digits := rest.takeWhile Char.isDigit
        if digits.isEmpty then
          none
        else
          match rest.drop digits.length with
          | a :: _ =>
              if a.isUpper then some (c1 :: c2 :: (digits ++ [a]))
              else some (c1 :: c2 :: digits)
          | [] => some (c1 :: c2 :: digits)
      else
        none
  | _ => none

/-- `re.search(r'(NT|SD|PN)\d+[A-Z]?', s)`: leftmost match of the SKU pattern. -/
def reSearchSku : List Char → Option (List Char)
  | [] => none
  | c :: rest =>
      match skuAt (c :: rest) with
      | some m => some m
      | none => reSearchSku rest

/-- `extract_asin` from `1_process_campaign_data.py` (lines 55-61): `None` for
a missing label, otherwise the leftmost `B[A-Z0-9]{9}` match or `None`. -/
def extract_asin (campaign_name : Option String) : Option String :=
  match campaign_name with
  | none => none
  | some s => (reSearchAsin s.data).map List.asString

/-- The SKU half of `extract_identifiers` from
`10_dashboard_from_campaign_report.py` (lines 73-86), also inlined in
`extract_and_classify` of `11_combined_reports_dashboard.py` (line 96). -/
def extract_sku (campaign_name : Option String) : Option String :=
  match campaign_name with
  | none => none
  | some s => (reSearchSku s.data).map List.asString

/-- The derived non-managed reference set: `all_asins - perpetua_asins`
(line 40 of both `1_process_campaign_data.py` and
`11_combined_reports_dashboard.py`, line 50 of
`10_dashboard_from_campaign_report.py`).  Python sets are modelled as lists
with membership up to `List.contains`. -/
def non_perpetua_asins (all_asins perpetua_asins : List String) : List String :=
  all_asins.filter (fun a => !(perpetua_asins.contains a))

/-- Python `str.strip()`: drop leading and trailing whitespace. -/
def pyStrip (s : String) : String :=
  List.asString (((s.data.dropWhile Char.isWhitespace).reverse.dropWhile
    Char.isWhitespace).reverse)

/-- Association-list model of a Python `dict` (each key kept once, insertion
order preserved). -/
abbrev Dict := List (String × String)

/-- Python `d[k]` / `d.get(k)` lookup. -/
def dictGet : Dict → String → Option String
  | [], _ => none
  | (k, v) :: rest, key => if k = key then some v else dictGet rest key

/-- Python `d[k] = v`: overwrite in place if the key is present, else append. -/
def dictInsert (d : Dict) (k v : String) : Dict :=
  if (dictGet d k).isSome then
    d.map (fun p => if p.1 = k then (k, v) else p)
  else
    d ++ [(k, v)]

/-- One row of a reference sheet: the SKU and ASIN cells, `none` when
`pd.isna` holds (blank cell). -/
structure RefRow where
  sku : Option String
  asin : Option String
deriving DecidableEq, Repr

/-- The first loop of the sku_to_asin build (both scripts 10 and 11): over the
perpetua sheet, insert every row having both cells, stripped. -/
def perpetuaSkuPass (rows : List RefRow) : Dict :=
  rows.foldl
    (fun d r =>
      match r.sku, r.asin with
      | some s, some a => dictInsert d (pyStrip s) (pyStrip a)
      | _, _ => d)
    []

/-- `sku_to_asin` as built by `11_combined_reports_dashboard.py` (lines
46-58): the perpetua pass, then the universe sheet inserted only for SKUs not
already present (`if sku not in sku_to_asin`). -/
def sku_to_asin_11 (perpetua_rows all_rows : List RefRow) : Dict :=
  all_rows.foldl
    (fun d r =>
      match r.sku, r.asin with
      | some s, some a =>
          if (dictGet d (pyStrip s)).isSome then d else dictInsert d (pyStrip s) (pyStrip a)
      | _, _ => d)
    (perpetuaSkuPass perpetua_rows)

/-- `sku_to_asin` as built by `10_dashboard_from_campaign_report.py` (lines
53-60): the perpetua pass, then the universe sheet inserted unconditionally,
overwriting any existing entry. -/
def sku_to_asin_10 (perpetua_rows all_rows : List RefRow) : Dict :=
  all_rows.foldl
    (fun d r =>
      match r.sku, r.asin with
      | some s, some a => dictInsert d (pyStrip s) (pyStrip a)
      | _, _ => d)
    (perpetuaSkuPass perpetua_rows)

/-- The three-way cohort outcome (`'Perpetua'` / `'Non-Perpetua'` /
`'Unknown'` in the scripts). -/
inductive Cohort where
  | Perpetua
  | NonPerpetua
  | Unknown
deriving DecidableEq, Repr

/-- `classify_campaign` from `1_process_campaign_data.py` (lines 72-81): a
pure membership test of the already-extracted ASIN. -/
def classify_campaign (perpetua_asins non_perpetua : List String)
    (asin : Option String) : Cohort :=
  match asin with
  | none => Cohort.Unknown
  | some a =>
      if a ∈ perpetua_asins then Cohort.Perpetua
      else if a ∈ non_perpetua then Cohort.NonPerpetua
      else Cohort.Unknown

/-- `classify_campaign` from `10_dashboard_from_campaign_report.py` (lines
88-109): extract both identifiers, try the ASIN against both sets, then the
SKU against the perpetua SKU set and through the sku_to_asin map. -/
def classify_campaign_10 (perpetua_asins perpetua_skus non_perpetua : List String)
    (skuToAsin : Dict) (campaign_name : Option String) :
    Cohort × Option String × Option String :=
  let asin := extract_asin campaign_name
  let sku := extract_sku campaign_name
  let viaAsin : Option (Cohort × Option String × Option String) :=
    match asin with
    | some a =>
        if a ∈ perpetua_asins then some (Cohort.Perpetua, some a, sku)
        else if a ∈ non_perpetua then some (Cohort.NonPerpetua, some a, sku)
        else none
    | none => none
  match viaAsin with
  | some r => r
  | none =>
      let viaSku : Option (Cohort × Option String × Option String) :=
        match sku with
        | some k =>
            if k ∈ perpetua_skus then some (Cohort.Perpetua, dictGet skuToAsin k, sku)
            else
              match dictGet skuToAsin k with
              | some mapped =>
                  if mapped ∈ non_perpetua then some (Cohort.NonPerpetua, some mapped, sku)
                  else none
              | none => none
        | none => none
      match viaSku with
      | some r => r
      | none => (Cohort.Unknown, asin, sku)

/-- `extract_and_classify` from `11_combined_reports_dashboard.py` (lines
86-114): extract ASIN and SKU, try the ASIN against both sets, then the SKU
resolved through sku_to_asin against both sets, else Unknown with the raw
extractions. -/
def extract_and_classify (perpetua_asins non_perpetua : List String)
    (skuToAsin : Dict) (campaign_name : Option String) :
    Option String × Option String × Cohort :=
  match campaign_name with
  | none => (none, none, Cohort.Unknown)
  | some s =>
      let asin := (reSearchAsin s.data).map List.asString
      let sku := (reSearchSku s.data).map List.asString
      let viaAsin : Option (Option String × Option String × Cohort) :=
        match asin with
        | some a =>
            if a ∈ perpetua_asins then some (some a, sku, Cohort.Perpetua)
            else if a ∈ non_perpetua then some (some a, sku, Cohort.NonPerpetua)
            else none
        | none => none
      match viaAsin with
      | some r => r
      | none =>
          let viaSku : Option (Option String × Option String × Cohort) :=
            match sku with
            | some k =>
                match dictGet skuToAsin k with
                | some mapped =>
                    if mapped ∈ perpetua_asins then some (some mapped, sku, Cohort.Perpetua)
                    else if mapped ∈ non_perpetua then some (some mapped, sku, Cohort.NonPerpetua)
                    else none
                | none => none
            | none => none
          match viaSku with
          | some r => r
          | none => (asin, sku, Cohort.Unknown)

/-- A combined-report row after cohort tagging: the free-text label, the
extracted identifiers and cohort, and the cleaned numeric fields. -/
structure TaggedRow where
  campaignName : Option String
  asin : Option String
  sku : Option String
  cohort : Cohort
  spend : ℚ
  sales : ℚ
  orders : ℚ
  clicks : ℚ
  impressions : ℚ
deriving DecidableEq, Repr

/-- Sum of one numeric field over a row collection (`subset[col].sum()`). -/
def colSum (f : TaggedRow → ℚ) (subset : List TaggedRow) : ℚ :=
  (subset.map f).sum

/-- `subset[col].nunique()`: distinct non-null values of an optional column. -/
def nunique (f : TaggedRow → Option String) (subset : List TaggedRow) : Nat :=
  ((subset.filterMap f).dedup).length

/-- The metric dictionary returned by `calc_all_metrics` in
`11_combined_reports_dashboard.py` (lines 170-198), numeric entries only. -/
structure Metrics where
  uniqueCampaigns : Nat
  uniqueAsins : Nat
  totalSpend : ℚ
  totalSales : ℚ
  totalOrders : ℚ
  totalClicks : ℚ
  totalImpressions : ℚ
  roas : ℚ
  acos : ℚ
  cpc : ℚ
  ctr : ℚ
  cvr : ℚ
  cpa : ℚ
  cpm : ℚ
  aov : ℚ
  spendPerAsin : ℚ
  salesPerAsin : ℚ
deriving DecidableEq, Repr

/-- `calc_all_metrics` from `11_combined_reports_dashboard.py` (lines
170-198): sum the five numeric columns over the subset and derive every ratio
with an explicit `if denominator > 0 else 0` guard. -/
def calc_all_metrics (subset : List TaggedRow) : Metrics :=
  let ts := colSum (·.spend) subset
  let sales := colSum (·.sales) subset
  let orders := colSum (·.orders) subset
  let clicks := colSum (·.clicks) subset
  let impr := colSum (·.impressions) subset
  let campaigns := nunique (·.campaignName) subset
  let asins := nunique (·.asin) subset
  { uniqueCampaigns := campaigns
    uniqueAsins := asins
    totalSpend := ts
    totalSales := sales
    totalOrders := orders
    totalClicks := clicks
    totalImpressions := impr
    roas := if ts > 0 then sales / ts else 0
    acos := if sales > 0 then ts / sales else 0
    cpc := if clicks > 0 then ts / clicks else 0
    ctr := if impr > 0 then clicks / impr else 0
    cvr := if clicks > 0 then orders / clicks else 0
    cpa := if orders > 0 then ts / orders else 0
    cpm := if impr > 0 then (ts / impr) * 1000 else 0
    aov := if orders > 0 then sales / orders else 0
    spendPerAsin := if (asins : ℚ) > 0 then ts / (asins : ℚ) else 0
    salesPerAsin := if (asins : ℚ) > 0 then sales / (asins : ℚ) else 0 }

/-- A single total-row carrying the five summed fields of a metric record,
as one would feed the aggregator its own single-row-per-group output. -/
def rowOfMetrics (m : Metrics) : TaggedRow :=
  { campaignName := none
    asin := none
    sku := none
    cohort := Cohort.Perpetua
    spend := m.totalSpend
    sales := m.totalSales
    orders := m.totalOrders
    clicks := m.totalClicks
    impressions := m.totalImpressions }

/-- The `isin(['Perpetua', 'Non-Perpetua'])` row filter the scripts apply
before aggregating. -/
def knownRows (rows : List TaggedRow) : List TaggedRow :=
  rows.filter (fun r => r.cohort = Cohort.Perpetua ∨ r.cohort = Cohort.NonPerpetua)

/-- `combined[combined['Advertising_Type'] == c]`. -/
def cohortRows (c : Cohort) (rows : List TaggedRow) : List TaggedRow :=
  rows.filter (fun r => r.cohort = c)

/-- An untagged input record: free-text label plus the cleaned numeric
columns (`Spend`, `7 Day Total Sales `, `7 Day Total Orders (#)`, `Clicks`,
`Impressions`). -/
structure Row where
  campaignName : Option String
  spend : ℚ
  sales : ℚ
  orders : ℚ
  clicks : ℚ
  impressions : ℚ
deriving DecidableEq, Repr

/-- Tagging one row, as `11_combined_reports_dashboard.py` does at lines
117-119: apply `extract_and_classify` to the label and store the three
results alongside the numeric fields. -/
def tagRow (perpetua_asins non_perpetua : List String) (skuToAsin : Dict)
    (r : Row) : TaggedRow :=
  let t := extract_and_classify perpetua_asins non_perpetua skuToAsin r.campaignName
  { campaignName := r.campaignName
    asin := t.1
    sku := t.2.1
    cohort := t.2.2
    spend := r.spend
    sales := r.sales
    orders := r.orders
    clicks := r.clicks
    impressions := r.impressions }

/-- Tagging a whole report. -/
def tagRows (perpetua_asins non_perpetua : List String) (skuToAsin : Dict)
    (rows : List Row) : List TaggedRow :=
  rows.map (tagRow perpetua_asins non_perpetua skuToAsin)

/-- A pandas/NumPy double as it appears in the scripts' outputs: a finite
value, an infinity, or NaN.  Division never raises in pandas; a zero
denominator produces one of the non-finite values instead. -/
inductive PdFloat where
  | num (q : ℚ)
  | posInf
  | negInf
  | nan
deriving DecidableEq, Repr

/-- Pandas/NumPy float division: finite quotient when the denominator is
nonzero, otherwise ±inf or NaN according to the numerator's sign. -/
def pdDiv (a b : ℚ) : PdFloat :=
  if b ≠ 0 then PdFloat.num (a / b)
  else if a > 0 then PdFloat.posInf
  else if a < 0 then PdFloat.negInf
  else PdFloat.nan

/-- One row of the per-cohort `comparison` table of
`1_process_campaign_data.py` (lines 162-188): the five sums plus the record
count, and the two derived ratios `Avg_CPC` and `Conversion_Rate` computed by
bare pandas column division with no zero guard (lines 187-188). -/
structure ComparisonRow where
  totalSpend : ℚ
  totalSales : ℚ
  totalOrders : ℚ
  totalImpressions : ℚ
  totalClicks : ℚ
  campaignRecords : Nat
  avgCpc : PdFloat
  conversionRate : PdFloat
deriving DecidableEq, Repr

/-- The `comparison` aggregation of `1_process_campaign_data.py` for one
cohort group: `groupby('Advertising_Type').agg({...: 'sum', ...: 'count'})`
followed by `comparison['Avg_CPC'] = Total_Spend / Total_Clicks` and
`comparison['Conversion_Rate'] = Total_Orders / Total_Clicks`. -/
def comparisonAgg (subset : List TaggedRow) : ComparisonRow :=
  let ts := colSum (·.spend) subset
  let sales := colSum (·.sales) subset
  let orders := colSum (·.orders) subset
  let impr := colSum (·.impressions) subset
  let clicks := colSum (·.clicks) subset
  { totalSpend := ts
    totalSales := sales
    totalOrders := orders
    totalImpressions := impr
    totalClicks := clicks
    campaignRecords := subset.length
    avgCpc := pdDiv ts clicks
    conversionRate := pdDiv orders clicks }

/-- The metric dictionary of `calc_tacos_metrics` in
`13_process_order_data_for_tacos.py` (lines 208-224). -/
structure TacosMetrics where
  totalRevenue : ℚ
  adSpend : ℚ
  adSales : ℚ
  organicSales : ℚ
  tacos : ℚ
  tRoas : ℚ
  regularRoas : ℚ
  organicRatio : ℚ
  organicLift : ℚ
deriving DecidableEq, Repr

/-- One order-data row as consumed by `calc_tacos_metrics`. -/
structure OrderRow where
  totalRevenue : ℚ
  adSpend : ℚ
  adSales : ℚ
deriving DecidableEq, Repr

/-- `calc_tacos_metrics` from `13_process_order_data_for_tacos.py` (lines
208-224): sums plus zero-guarded TACoS, T-ROAS, regular ROAS, organic ratio
and organic lift. -/
def calc_tacos_metrics (subset : List OrderRow) : TacosMetrics :=
  let total_revenue := (subset.map (·.totalRevenue)).sum
  let ad_spend := (subset.map (·.adSpend)).sum
  let ad_sales := (subset.map (·.adSales)).sum
  let organic_sales := total_revenue - ad_sales
  { totalRevenue := total_revenue
    adSpend := ad_spend
    adSales := ad_sales
    organicSales := organic_sales
    tacos := if total_revenue > 0 then ad_spend / total_revenue * 100 else 0
    tRoas := if ad_spend > 0 then total_revenue / ad_spend else 0
    regularRoas := if ad_spend > 0 then ad_sales / ad_spend else 0
    organicRatio := if total_revenue > 0 then organic_sales / total_revenue * 100 else 0
    organicLift := if ad_sales > 0 then organic_sales / ad_sales * 100 else 0 }

/-- Remove every `$`, `%` and `,` character, the symbol-stripping applied to
object-dtype numeric columns (`1_process_campaign_data.py` line 107,
`11_combined_reports_dashboard.py` line 146). -/
def stripSymbols (s : String) : String :=
  List.asString (s.data.filter (fun c => !(c = '$' || c = '%' || c = ',')))

/-- Digits-to-number accumulator for the decimal parser. -/
def digitsVal (l : List Char) : ℕ :=
  l.foldl (fun n c => 10 * n + (c.toNat - 48)) 0

/-- Model of `pd.to_numeric(x, errors='coerce')` on a decimal literal: strip
surrounding whitespace, optional sign, then digits with an optional fractional
part; any other shape coerces to null (`none`, pandas NaN). -/
def toNumericCoerce (s : String) : Option ℚ :=
  let l := (pyStrip s).data
  let signed : ℚ × List Char :=
    match l with
    | '-' :: rest => (-1, rest)
    | '+' :: rest => (1, rest)
    | _ => (1, l)
  let sign := signed.1
  let body := signed.2
  let intPart := body.takeWhile Char.isDigit
  match body.drop intPart.length with
  | [] =>
      if intPart.isEmpty then none
      else some (sign * (digitsVal intPart : ℚ))
  | '.' :: fracTail =>
      let fracPart := fracTail.takeWhile Char.isDigit
      if !(fracTail.drop fracPart.length).isEmpty then none
      else if intPart.isEmpty && fracPart.isEmpty then none
      else some (sign * ((digitsVal intPart : ℚ) +
            (digitsVal fracPart : ℚ) / (10 ^ fracPart.length : ℚ)))
  | _ => none

/-- The numeric-column cleaning step
(`1_process_campaign_data.py` lines 103-108): strip symbols, coerce with
`pd.to_numeric(errors='coerce')`, and `fillna(0)`. -/
def cleanNumeric (s : String) : ℚ :=
  (toNumericCoerce (stripSymbols s)).getD 0

/-! ### Concrete scenario inputs -/

/-- The managed reference list of the two-record example scenario. -/
def scenarioPerpetuaList : List String := ["B0MANAGED1"]

/-- The universe reference list of the two-record example scenario. -/
def scenarioAllList : List String := ["B0MANAGED1", "B0MANUAL11"]

/-- The two records of the example scenario: a managed-labelled record with
spend 100 / sales 250 and a non-managed-labelled record with spend 50 /
sales 50. -/
def scenarioRows : List Row :=
  [(⟨some "Ad B0MANAGED1", 100, 250, 4, 40, 1000⟩ : Row),
   (⟨some "Ad B0MANUAL11", 50, 50, 1, 20, 500⟩ : Row)]

/-- The scenario records after cohort tagging. -/
def scenarioTagged : List TaggedRow :=
  tagRows scenarioPerpetuaList
    (non_perpetua_asins scenarioAllList scenarioPerpetuaList) [] scenarioRows

/-- A one-record cohort group with positive spend and zero clicks, feeding
the script-1 `comparison` aggregation. -/
def zeroClicksGroup : List TaggedRow :=
  [(⟨none, none, none, Cohort.Perpetua, 100, 0, 3, 0, 5⟩ : TaggedRow)]

/-! ### Helper lemmas -/

/-- A key present in a dict stays bound to the same value after appending
further entries on the right. -/
theorem dictGet_append_of_some (d l : Dict) (k v : String)
    (h : dictGet d k = some v) : dictGet (d ++ l) k = some v := by
  induction d with
  | nil => simp [dictGet] at h
  | cons p rest ih =>
      obtain ⟨k1, v1⟩ := p
      by_cases hk : k1 = k <;> simp_all [dictGet]

/-! ### Claim theorems -/

/-- C1, counterexample to the claim as stated: for the one-record group with
spend 100 and clicks 0, script 1's derived per-cohort ratio `Avg_CPC`
(line 187 of `1_process_campaign_data.py`, an unguarded pandas division) is
positive infinity, not 0, even though the summed denominator
`Total_Clicks` of the group is 0. -/
theorem ratio_zero_guard_counterexample :
    colSum (·.clicks) zeroClicksGroup = 0 ∧
    (comparisonAgg zeroClicksGroup).avgCpc = PdFloat.posInf ∧
    ((comparisonAgg zeroClicksGroup).avgCpc == PdFloat.num 0) = false := by
  refine ⟨by simp [zeroClicksGroup, colSum], ?_, ?_⟩ <;>
    simp [zeroClicksGroup, comparisonAgg, colSum, pdDiv]

/-- C1 (amended): every derived ratio computed with an explicit
zero-denominator guard — ROAS, ACOS, CPC, CTR, CVR, CPA, CPM, AOV and the
per-ASIN averages in `calc_all_metrics`, and TACoS, T-ROAS, regular ROAS,
organic ratio and organic lift in `calc_tacos_metrics` — emits 0 whenever
its summed denominator is 0.  The exception forced by the counterexample:
script 1's per-cohort `Avg_CPC` and `Conversion_Rate` are unguarded pandas
divisions, and with a zero clicks total they emit +inf, -inf or NaN
according to the numerator's sign (never an exception, never 0). -/
theorem ratio_zero_guard_amended :
    (∀ subset : List TaggedRow,
      (colSum (·.spend) subset = 0 → (calc_all_metrics subset).roas = 0) ∧
      (colSum (·.sales) subset = 0 → (calc_all_metrics subset).acos = 0) ∧
      (colSum (·.clicks) subset = 0 →
        (calc_all_metrics subset).cpc = 0 ∧ (calc_all_metrics subset).cvr = 0) ∧
      (colSum (·.impressions) subset = 0 →
        (calc_all_metrics subset).ctr = 0 ∧ (calc_all_metrics subset).cpm = 0) ∧
      (colSum (·.orders) subset = 0 →
        (calc_all_metrics subset).cpa = 0 ∧ (calc_all_metrics subset).aov = 0) ∧
      (nunique (·.asin) subset = 0 →
        (calc_all_metrics subset).spendPerAsin = 0 ∧
        (calc_all_metrics subset).salesPerAsin = 0)) ∧
    (∀ os : List OrderRow,
      ((os.map (·.totalRevenue)).sum = 0 →
        (calc_tacos_metrics os).tacos = 0 ∧
        (calc_tacos_metrics os).organicRatio = 0) ∧
      ((os.map (·.adSpend)).sum = 0 →
        (calc_tacos_metrics os).tRoas = 0 ∧
        (calc_tacos_metrics os).regularRoas = 0) ∧
      ((os.map (·.adSales)).sum = 0 → (calc_tacos_metrics os).organicLift = 0)) ∧
    (∀ subset : List TaggedRow, colSum (·.clicks) subset = 0 →
      (comparisonAgg subset).avgCpc =
        (if colSum (·.spend) subset > 0 then PdFloat.posInf
         else if colSum (·.spend) subset < 0 then PdFloat.negInf
         else PdFloat.nan) ∧
      (comparisonAgg subset).conversionRate =
        (if colSum (·.orders) subset > 0 then PdFloat.posInf
         else if colSum (·.orders) subset < 0 then PdFloat.negInf
         else PdFloat.nan)) := by
  refine ⟨fun subset => ⟨?_, ?_, ?_, ?_, ?_, ?_⟩,
          fun os => ⟨?_, ?_, ?_⟩, fun subset h => ⟨?_, ?_⟩⟩ <;>
    try intro h
  all_goals simp_all [calc_all_metrics, calc_tacos_metrics, comparisonAgg, pdDiv]

/-- C1 witness: the amended guard theorem applied to the empty record group,
the empty order group, and the zero-clicks group (spend 100 > 0). -/
theorem ratio_zero_guard_amended_witness :
    (calc_all_metrics ([] : List TaggedRow)).roas = 0 ∧
    (calc_tacos_metrics ([] : List OrderRow)).tRoas = 0 ∧
    (comparisonAgg zeroClicksGroup).avgCpc = PdFloat.posInf := by
  refine ⟨?_, ?_, ?_⟩
  · exact (ratio_zero_guard_amended.1 []).1 (by simp [colSum])
  · exact ((ratio_zero_guard_amended.2.1 []).2.1 (by simp)).1
  · have h := (ratio_zero_guard_amended.2.2 zeroClicksGroup
      (by simp [zeroClicksGroup, colSum])).1
    rw [h]
    norm_num [zeroClicksGroup, colSum]

/-- C2: an identifier belonging to the managed (perpetua) reference set is
classified Managed by `classify_campaign` of script 1, and by the label
classifier of script 10 whenever it is the identifier the label yields —
regardless of the SKU sets, the alias map, or any alias in the label. -/
theorem managed_identifier_classifies_managed :
    (∀ (perp nonPerp : List String) (a : String), a ∈ perp →
      classify_campaign perp nonPerp (some a) = Cohort.Perpetua) ∧
    (∀ (perp perpSkus nonPerp : List String) (d : Dict) (s a : String),
      extract_asin (some s) = some a → a ∈ perp →
      (classify_campaign_10 perp perpSkus nonPerp d (some s)).1 = Cohort.Perpetua) := by
  constructor
  · intro perp nonPerp a h
    simp [classify_campaign, h]
  · intro perp perpSkus nonPerp d s a ha hmem
    simp [classify_campaign_10, ha, hmem]

/-- C2 witness: the managed-membership theorem at a concrete managed ASIN,
with a SKU alias also present in the label and an alias map pointing that
SKU at a different ASIN. -/
theorem managed_identifier_classifies_managed_witness :
    classify_campaign ["B0MANAGED1"] [] (some "B0MANAGED1") = Cohort.Perpetua ∧
    (classify_campaign_10 ["B0MANAGED1"] ["NT123"] ["B0MANUAL11"]
      [("NT123", "B0MANUAL11")] (some "Ad B0MANAGED1 NT123")).1 = Cohort.Perpetua := by
  constructor
  · exact managed_identifier_classifies_managed.1 ["B0MANAGED1"] [] "B0MANAGED1"
      (by decide)
  · exact managed_identifier_classifies_managed.2 ["B0MANAGED1"] ["NT123"]
      ["B0MANUAL11"] [("NT123", "B0MANUAL11")] "Ad B0MANAGED1 NT123" "B0MANAGED1"
      (by decide) (by decide)

/-- C3: the derived non-managed set is exactly universe minus managed —
membership in `non_perpetua_asins` coincides with (in universe and not in
managed) — and no identifier is simultaneously in the managed set and in
the derived non-managed set.  Both scripts that build the sets (1 and 11,
and script 10) use this same set difference. -/
theorem non_managed_partition_invariant :
    ∀ (all_list perp : List String) (a : String),
      ((non_perpetua_asins all_list perp).contains a
        = (all_list.contains a && !(perp.contains a))) ∧
      ((perp.contains a && (non_perpetua_asins all_list perp).contains a) = false) := by
  intro all_list perp a
  constructor
  · rw [Bool.eq_iff_iff]
    simp [non_perpetua_asins, List.contains_iff_exists_mem_beq]
  · rw [Bool.eq_iff_iff]
    simp [non_perpetua_asins, List.contains_iff_exists_mem_beq]
    exact fun h _ => h

/-- C4, counterexample to the claim as stated: with a managed row mapping
SKU `NT1` to `B0AAAAAAA1` and a universe row mapping the same SKU to
`B0BBBBBBB1`, the builder of `10_dashboard_from_campaign_report.py`
(unconditional insertion, lines 58-60) leaves `NT1` bound to the
universe-list ASIN, not the managed-list one. -/
theorem managed_alias_precedence_counterexample :
    dictGet (perpetuaSkuPass [(⟨some "NT1", some "B0AAAAAAA1"⟩ : RefRow)]) "NT1"
      = some "B0AAAAAAA1" ∧
    dictGet (sku_to_asin_10 [(⟨some "NT1", some "B0AAAAAAA1"⟩ : RefRow)]
      [(⟨some "NT1", some "B0BBBBBBB1"⟩ : RefRow)]) "NT1" = some "B0BBBBBBB1" ∧
    ((dictGet (sku_to_asin_10 [(⟨some "NT1", some "B0AAAAAAA1"⟩ : RefRow)]
      [(⟨some "NT1", some "B0BBBBBBB1"⟩ : RefRow)]) "NT1"
        == some "B0AAAAAAA1") = false) := by
  refine ⟨by decide, by decide, by decide⟩

/-- C4 (amended): in the builder of `11_combined_reports_dashboard.py`
(lines 46-58) every alias mapping established from the managed (perpetua)
list is retained unchanged through the universe pass, so managed-list
entries take precedence on conflicting aliases there; in the builder of
`10_dashboard_from_campaign_report.py` the universe pass inserts
unconditionally and a conflicting universe-list entry overwrites the
managed-list one. -/
theorem managed_alias_precedence_amended :
    ∀ (pr ur : List RefRow) (k v : String),
      dictGet (perpetuaSkuPass pr) k = some v →
      dictGet (sku_to_asin_11 pr ur) k = some v := by
  intro pr ur k v h
  rw [sku_to_asin_11]
  generalize (perpetuaSkuPass pr) = d at h ⊢
  induction ur generalizing d with
  | nil => simpa using h
  | cons r rest ih =>
      rw [List.foldl_cons]
      apply ih
      match hr : r.sku, hr2 : r.asin with
      | some s, some a =>
          by_cases hc : (dictGet d (pyStrip s)).isSome
          · simpa [hc] using h
          · have hnone : dictGet d (pyStrip s) = none := by
              cases hd : dictGet d (pyStrip s) <;> simp_all
            simp only [hc, if_false]
            rw [dictInsert, hnone]
            simpa using dictGet_append_of_some d _ k v h
      | some s, none => simpa using h
      | none, some a => simpa using h
      | none, none => simpa using h

/-- C4 witness: the precedence theorem at the conflicting concrete rows —
script 11's builder keeps the managed-list mapping. -/
theorem managed_alias_precedence_amended_witness :
    dictGet (sku_to_asin_11 [(⟨some "NT1", some "B0AAAAAAA1"⟩ : RefRow)]
      [(⟨some "NT1", some "B0BBBBBBB1"⟩ : RefRow)]) "NT1" = some "B0AAAAAAA1" :=
  managed_alias_precedence_amended [(⟨some "NT1", some "B0AAAAAAA1"⟩ : RefRow)]
    [(⟨some "NT1", some "B0BBBBBBB1"⟩ : RefRow)] "NT1" "B0AAAAAAA1" (by decide)

/-- C5: the classifier of `11_combined_reports_dashboard.py` tries the
extracted identifier against the managed set first, then against the
non-managed set; only when the identifier resolves to neither does it test
the alias resolved through the alias map (again managed first); and a label
from which neither regex extracts anything yields exactly
`(None, None, Unknown)`. -/
theorem classifier_tie_break_order :
    ∀ (perp nonPerp : List String) (d : Dict) (s : String),
      (∀ a, extract_asin (some s) = some a → a ∈ perp →
        extract_and_classify perp nonPerp d (some s)
          = (some a, extract_sku (some s), Cohort.Perpetua)) ∧
      (∀ a, extract_asin (some s) = some a → a ∉ perp → a ∈ nonPerp →
        extract_and_classify perp nonPerp d (some s)
          = (some a, extract_sku (some s), Cohort.NonPerpetua)) ∧
      (∀ k m, (∀ a, extract_asin (some s) = some a → a ∉ perp ∧ a ∉ nonPerp) →
        extract_sku (some s) = some k → dictGet d k = some m → m ∈ perp →
        extract_and_classify perp nonPerp d (some s)
          = (some m, some k, Cohort.Perpetua)) ∧
      (∀ k m, (∀ a, extract_asin (some s) = some a → a ∉ perp ∧ a ∉ nonPerp) →
        extract_sku (some s) = some k → dictGet d k = some m →
        m ∉ perp → m ∈ nonPerp →
        extract_and_classify perp nonPerp d (some s)
          = (some m, some k, Cohort.NonPerpetua)) ∧
      (extract_asin (some s) = none → extract_sku (some s) = none →
        extract_and_classify perp nonPerp d (some s)
          = (none, none, Cohort.Unknown)) := by
  intro perp nonPerp d s
  have hA : extract_asin (some s) = (reSearchAsin s.data).map List.asString := rfl
  have hS : extract_sku (some s) = (reSearchSku s.data).map List.asString := rfl
  refine ⟨?_, ?_, ?_, ?_, ?_⟩
  · intro a ha hmem
    rw [hA] at ha
    simp [extract_and_classify, ha, hmem, hS]
  · intro a ha hnp hmem
    rw [hA] at ha
    simp [extract_and_classify, ha, hnp, hmem, hS]
  · intro k m hnores hk hm hmem
    rw [hS] at hk
    cases hA2 : extract_asin (some s) with
    | none =>
        rw [hA] at hA2
        simp [extract_and_classify, hA2, hk, hm, hmem]
    | some a =>
        obtain ⟨h1, h2⟩ := hnores a hA2
        rw [hA] at hA2
        simp [extract_and_classify, hA2, hk, hm, hmem, h1, h2]
  · intro k m hnores hk hm hnp hmem
    rw [hS] at hk
    cases hA2 : extract_asin (some s) with
    | none =>
        rw [hA] at hA2
        simp [extract_and_classify, hA2, hk, hm, hnp, hmem]
    | some a =>
        obtain ⟨h1, h2⟩ := hnores a hA2
        rw [hA] at hA2
        simp [extract_and_classify, hA2, hk, hm, hnp, hmem, h1, h2]
  · intro hA2 hk
    rw [hA] at hA2
    rw [hS] at hk
    simp [extract_and_classify, hA2, hk]

/-- C5 witness: the tie-break theorem at concrete labels — a label whose
identifier is managed even though its alias maps elsewhere, and a label
matching neither pattern, which yields `(None, None, Unknown)`. -/
theorem classifier_tie_break_order_witness :
    extract_and_classify ["B0MANAGED1"] ["B0MANUAL11"] [("NT123", "B0MANUAL11")]
      (some "Ad B0MANAGED1 NT123")
      = (some "B0MANAGED1", some "NT123", Cohort.Perpetua) ∧
    extract_and_classify ["B0MANAGED1"] ["B0MANUAL11"] [("NT123", "B0MANUAL11")]
      (some "hello")
      = (none, none, Cohort.Unknown) := by
  constructor
  · exact (classifier_tie_break_order ["B0MANAGED1"] ["B0MANUAL11"]
      [("NT123", "B0MANUAL11")] "Ad B0MANAGED1 NT123").1 "B0MANAGED1"
      (by decide) (by decide)
  · exact (classifier_tie_break_order ["B0MANAGED1"] ["B0MANUAL11"]
      [("NT123", "B0MANUAL11")] "hello").2.2.2.2 (by decide) (by decide)

/-- C6: for every tagged record collection and every numeric field, the
per-cohort sums over the Managed and NonManaged groups add up to the sum of
that field over the input restricted to non-Unknown records — grouping
neither duplicates nor loses records beyond the Unknown exclusion. -/
theorem aggregation_sum_preservation :
    ∀ (rows : List TaggedRow) (f : TaggedRow → ℚ),
      colSum f (cohortRows Cohort.Perpetua rows)
        + colSum f (cohortRows Cohort.NonPerpetua rows)
        = colSum f (knownRows rows) := by
  intro rows f
  induction rows with
  | nil => simp [colSum, cohortRows, knownRows]
  | cons r rs ih =>
      cases hc : r.cohort <;>
        simp [colSum, cohortRows, knownRows, hc, List.filter_cons] at ih ⊢ <;>
        linarith

/-- C7: feeding `calc_all_metrics` the single total-row it produced returns
the same five totals and the same eight summed-field ratios — the summing
aggregation is idempotent on its own grouped output. -/
theorem aggregation_idempotent_on_output :
    ∀ subset : List TaggedRow,
      (calc_all_metrics [rowOfMetrics (calc_all_metrics subset)]).totalSpend
          = (calc_all_metrics subset).totalSpend ∧
      (calc_all_metrics [rowOfMetrics (calc_all_metrics subset)]).totalSales
          = (calc_all_metrics subset).totalSales ∧
      (calc_all_metrics [rowOfMetrics (calc_all_metrics subset)]).totalOrders
          = (calc_all_metrics subset).totalOrders ∧
      (calc_all_metrics [rowOfMetrics (calc_all_metrics subset)]).totalClicks
          = (calc_all_metrics subset).totalClicks ∧
      (calc_all_metrics [rowOfMetrics (calc_all_metrics subset)]).totalImpressions
          = (calc_all_metrics subset).totalImpressions ∧
      (calc_all_metrics [rowOfMetrics (calc_all_metrics subset)]).roas
          = (calc_all_metrics subset).roas ∧
      (calc_all_metrics [rowOfMetrics (calc_all_metrics subset)]).acos
          = (calc_all_metrics subset).acos ∧
      (calc_all_metrics [rowOfMetrics (calc_all_metrics subset)]).cpc
          = (calc_all_metrics subset).cpc ∧
      (calc_all_metrics [rowOfMetrics (calc_all_metrics subset)]).ctr
          = (calc_all_metrics subset).ctr ∧
      (calc_all_metrics [rowOfMetrics (calc_all_metrics subset)]).cvr
          = (calc_all_metrics subset).cvr ∧
      (calc_all_metrics [rowOfMetrics (calc_all_metrics subset)]).cpa
          = (calc_all_metrics subset).cpa ∧
      (calc_all_metrics [rowOfMetrics (calc_all_metrics subset)]).cpm
          = (calc_all_metrics subset).cpm ∧
      (calc_all_metrics [rowOfMetrics (calc_all_metrics subset)]).aov
          = (calc_all_metrics subset).aov := by
  intro subset
  refine ⟨?_, ?_, ?_, ?_, ?_, ?_, ?_, ?_, ?_, ?_, ?_, ?_, ?_⟩ <;>
    simp [calc_all_metrics, rowOfMetrics, colSum]

/-- C8: on the two-record scenario — a managed-labelled record with spend
100 and sales 250 and a non-managed-labelled record with spend 50 and sales
50 — the aggregator reports Managed ROAS = 2.5, NonManaged ROAS = 1.0 and
Managed ACOS = 0.40. -/
theorem two_record_example_scenario :
    (calc_all_metrics (cohortRows Cohort.Perpetua scenarioTagged)).roas = 5 / 2 ∧
    (calc_all_metrics (cohortRows Cohort.NonPerpetua scenarioTagged)).roas = 1 ∧
    (calc_all_metrics (cohortRows Cohort.Perpetua scenarioTagged)).acos = 2 / 5 := by
  have h1 : extract_and_classify scenarioPerpetuaList
      (non_perpetua_asins scenarioAllList scenarioPerpetuaList) []
      (some "Ad B0MANAGED1") = (some "B0MANAGED1", none, Cohort.Perpetua) := by
    decide
  have h2 : extract_and_classify scenarioPerpetuaList
      (non_perpetua_asins scenarioAllList scenarioPerpetuaList) []
      (some "Ad B0MANUAL11") = (some "B0MANUAL11", none, Cohort.NonPerpetua) := by
    decide
  refine ⟨?_, ?_, ?_⟩ <;>
    simp [scenarioTagged, scenarioRows, tagRows, tagRow, h1, h2, cohortRows,
      calc_all_metrics, colSum] <;>
    norm_num

/-- C9: the numeric-cleaning step is total — whenever a value, after
stripping currency, percent and thousands symbols, fails to parse as a
number (`pd.to_numeric(errors='coerce')` yields null), the cleaned value is
0; no parsing failure is surfaced. -/
theorem numeric_cleaning_total_coercion :
    ∀ s : String, toNumericCoerce (stripSymbols s) = none → cleanNumeric s = 0 := by
  intro s h
  simp [cleanNumeric, h]

/-- C9 witness: the coercion theorem at the unparseable value `"abc"`. -/
theorem numeric_cleaning_total_coercion_witness :
    toNumericCoerce (stripSymbols "abc") = none ∧ cleanNumeric "abc" = 0 :=
  ⟨by decide, numeric_cleaning_total_coercion "abc" (by decide)⟩

/-- C10: the identifier regex `B[A-Z0-9]{9}` accepts any uppercase `B`
followed by nine uppercase alphanumerics and does not require the `B0`
prefix of a real ASIN: from the label `"Holiday BESTSELLER Push"`, which
contains no ASIN, extraction returns `BESTSELLER` (not `None`), and
classification then proceeds on this spurious identifier — here membership
of `BESTSELLER` in the non-managed set makes the record NonManaged. -/
theorem asin_regex_spurious_extraction :
    extract_asin (some "Holiday BESTSELLER Push") = some "BESTSELLER" ∧
    ((extract_asin (some "Holiday BESTSELLER Push") == none) = false) ∧
    extract_and_classify [] ["BESTSELLER"] [] (some "Holiday BESTSELLER Push")
      = (some "BESTSELLER", none, Cohort.NonPerpetua) ∧
    classify_campaign [] ["BESTSELLER"]
      (extract_asin (some "Holiday BESTSELLER Push")) = Cohort.NonPerpetua := by
  refine ⟨by decide, by decide, by decide, by decide⟩

end PerpetuaReport
